import Mathlib

/-!
Verification of the authentication and session-lifecycle core of the
authServiceYousch repository, as a shallow embedding in Lean 4.

The embedding follows the Python source:
* `app/core/security.py`   — token codec, password hashing, password policy
* `app/models/user.py`     — `User` and `UserSession` records and their methods
* `app/api/deps.py`        — `get_current_user` authentication dependency
* `app/api/v1/endpoints/auth.py` — register / login / refresh / logout /
  verify-email / request-password-reset / reset-password flows

Machine-level conventions of the embedding:
* time is a `Nat` (seconds since an arbitrary epoch);
* the database is a pair of committed/pending states (`DbConn`); endpoint
  flows mutate the pending state and call `commit` exactly where the source
  calls `db.commit()`; the session wrapper (`get_db`) rolls the pending
  state back on an error;
* a JWT is modelled as its claim set together with the key it was signed
  with; decoding under the right key recovers the claims, decoding under a
  wrong key fails (the usual symbolic model of a MAC);
* bcrypt hashing (an external collaborator) is modelled as an injective
  tagging function, so that verification is exactly a match check.
-/

namespace AuthService

/-- JSON-ish values, used to model the serialized form of a pydantic
response model. -/
inductive JVal where
  | str (s : String)
  | num (n : Nat)
  | boolVal (b : Bool)
  | null
deriving DecidableEq, Repr

/-- Encode an optional string field. -/
def JVal.ofOptStr : Option String → JVal
  | some s => .str s
  | none => .null

/-- Encode an optional numeric field. -/
def JVal.ofOptNum : Option Nat → JVal
  | some n => .num n
  | none => .null

/-- An HTTP error as raised via `HTTPException(status_code, detail)`. -/
structure HttpError where
  status : Nat
  detail : String
deriving DecidableEq, Repr

/-! ## Token codec (`app/core/security.py`) -/

/-- The claim set carried by a JWT in this service: the call sites of
`create_access_token` / `create_refresh_token` always put `sub` in the
payload, the codec adds `exp`, and refresh tokens add `type = "refresh"`. -/
structure Claims where
  sub : Option String
  exp : Option Nat
  type : Option String
deriving DecidableEq, Repr

/-- A signed token: its claims plus the key it was signed with.  This is the
symbolic model of `jwt.encode(claims, key, algorithm)`. -/
structure Jwt where
  claims : Claims
  key : String
deriving DecidableEq, Repr

/-- `get_password_hash` (bcrypt), modelled as an injective tag. -/
def getPasswordHash (password : String) : String :=
  "bcrypt$" ++ password

/-- `verify_password`: true iff the password matches the hash. -/
def verifyPassword (plain hashed : String) : Bool :=
  decide (getPasswordHash plain = hashed)

/-- `create_access_token(data={"sub": sub}, expires_delta)`: adds
`exp = now + delta` and signs; no `type` claim is added. -/
def createAccessToken (sub : String) (now delta : Nat) (secret : String) : Jwt :=
  { claims := { sub := some sub, exp := some (now + delta), type := none }
    key := secret }

/-- `create_refresh_token(data={"sub": sub}, expires_delta)`: adds
`exp = now + delta` and `type = "refresh"`, then signs. -/
def createRefreshToken (sub : String) (now delta : Nat) (secret : String) : Jwt :=
  { claims := { sub := some sub, exp := some (now + delta), type := some "refresh" }
    key := secret }

/-- `verify_token`: decode under `secret`; reject a bad signature and an
`exp` strictly in the past, otherwise return the payload. -/
def verifyToken (secret : String) (now : Nat) (token : Jwt) : Option Claims :=
  if token.key = secret then
    match token.claims.exp with
    | some e => if now > e then none else some token.claims
    | none => some token.claims
  else none

/-- The characters removed by `sanitize_input` (quotes, backtick and braces
written via their code points). -/
def dangerousChars : List Char :=
  ['<', '>', Char.ofNat 34, Char.ofNat 39, '&', ';', '|', Char.ofNat 96,
   '$', '(', ')', Char.ofNat 123, Char.ofNat 125]

/-- Strip leading and trailing whitespace (Python `str.strip`). -/
def stripChars (l : List Char) : List Char :=
  ((l.dropWhile Char.isWhitespace).reverse.dropWhile Char.isWhitespace).reverse

/-- `sanitize_input`: drop the dangerous characters, then strip. -/
def sanitizeInput (s : String) : String :=
  if s = "" then ""
  else String.mk (stripChars (s.toList.filter (fun c => !(dangerousChars.contains c))))

/-- `sanitize_input_data` applied to an optional value: Python's falsy check
turns `None` into `""`. -/
def sanitizeOptInput : Option String → String
  | none => ""
  | some s => sanitizeInput s

/-- The special characters accepted by `validate_password_strength`. -/
def specialChars : List Char :=
  ['!', '@', '#', '$', '%', '^', '&', '*', '(', ')', '_', '+', '-', '=',
   '[', ']', Char.ofNat 123, Char.ofNat 125, '|', ';', ':', ',', '.', '<', '>', '?']

/-- `validate_password_strength` in `security.py`: collects the rule
violations in source order and is valid iff there are none. -/
def validatePasswordStrength (password : String) : Bool × List String :=
  let errors :=
    (if password.length < 8 then ["Password must be at least 8 characters long"] else [])
    ++ (if password.toList.any Char.isUpper then []
        else ["Password must contain at least one uppercase letter"])
    ++ (if password.toList.any Char.isLower then []
        else ["Password must contain at least one lowercase letter"])
    ++ (if password.toList.any Char.isDigit then []
        else ["Password must contain at least one digit"])
    ++ (if password.toList.any (fun c => specialChars.contains c) then []
        else ["Password must contain at least one special character"])
  (errors.isEmpty, errors)

/-- The dependency-layer wrapper `validate_password_strength` in
`deps.py`: raises a 400 with the joined error list when invalid. -/
def validatePasswordStrengthDep (password : String) : Option HttpError :=
  let r := validatePasswordStrength password
  if r.1 then none
  else some ⟨400, "Password validation failed: " ++ String.intercalate "; " r.2⟩

/-! ## Data model (`app/models/user.py`) -/

/-- The `users` row, with the fields the auth flows read and write. -/
structure User where
  id : Nat
  schoolId : Nat
  campusId : Option Nat
  roleId : Nat
  email : String
  username : Option String
  phone : Option String
  hashedPassword : String
  firstName : Option String
  lastName : Option String
  dateOfBirth : Option Nat
  gender : Option String
  profilePicture : Option String
  isActive : Bool
  isVerified : Bool
  failedLoginAttempts : Nat
  lockedUntil : Option Nat
  emailVerificationToken : Option String
  passwordResetToken : Option String
  passwordResetExpires : Option Nat
  createdAt : Nat
  updatedAt : Nat
  lastLogin : Option Nat
deriving DecidableEq, Repr

/-- `User.is_locked`: locked iff `locked_until` is set and still in the
future (`datetime.now() < locked_until`). -/
def User.isLocked (u : User) (now : Nat) : Bool :=
  match u.lockedUntil with
  | none => false
  | some t => decide (now < t)

/-- `User.can_login`: active and not locked (email verification is
explicitly not required). -/
def User.canLogin (u : User) (now : Nat) : Bool :=
  u.isActive && !(u.isLocked now)

/-- `User.increment_failed_login_attempts`. -/
def User.incrementFailedLoginAttempts (u : User) : User :=
  { u with failedLoginAttempts := u.failedLoginAttempts + 1 }

/-- `User.reset_failed_login_attempts`: zero the counter and clear the
lock. -/
def User.resetFailedLoginAttempts (u : User) : User :=
  { u with failedLoginAttempts := 0, lockedUntil := none }

/-- `User.lock_account(lock_duration_minutes)`. -/
def User.lockAccount (u : User) (lockDurationMinutes now : Nat) : User :=
  { u with lockedUntil := some (now + lockDurationMinutes * 60) }

/-- `User.update_last_login`: stamp `last_login` and reset the counter. -/
def User.updateLastLogin (u : User) (now : Nat) : User :=
  ({ u with lastLogin := some now } : User).resetFailedLoginAttempts

/-- The `sessions` row. -/
structure UserSession where
  id : Nat
  userId : Nat
  sessionToken : Jwt
  refreshToken : Jwt
  ipAddress : String
  userAgent : String
  isActive : Bool
  expiresAt : Nat
  createdAt : Nat
  lastUsed : Nat
deriving DecidableEq, Repr

/-- `UserSession.is_expired`: `datetime.now() > expires_at`. -/
def UserSession.isExpired (s : UserSession) (now : Nat) : Bool :=
  decide (now > s.expiresAt)

/-- `UserSession.deactivate`. -/
def UserSession.deactivate (s : UserSession) : UserSession :=
  { s with isActive := false }

/-! ## Database state -/

/-- The store: user rows, session rows and the autoincrement counters. -/
structure Db where
  users : List User
  sessions : List UserSession
  nextUserId : Nat
  nextSessionId : Nat
deriving DecidableEq, Repr

/-- A connection as handed out by `get_db`: the committed state plus the
pending (flushed but uncommitted) state. -/
structure DbConn where
  committed : Db
  pending : Db
deriving DecidableEq, Repr

/-- `db.commit()`: the pending state becomes durable. -/
def DbConn.commit (c : DbConn) : DbConn :=
  { committed := c.pending, pending := c.pending }

/-- `session.rollback()` as performed by `get_db` on an escaping
exception: discard the uncommitted changes. -/
def DbConn.rollback (c : DbConn) : DbConn :=
  { c with pending := c.committed }

/-- Apply a row update to every user row with the given primary key (the
ORM mutation of a loaded row, written back on flush). -/
def updateUserRow (users : List User) (uid : Nat) (f : User → User) : List User :=
  users.map (fun u => if u.id = uid then f u else u)

/-- Configuration (`app/core/config.py`): secret key and token TTLs. -/
structure Settings where
  secretKey : String
  accessTokenExpireMinutes : Nat
  refreshTokenExpireDays : Nat
deriving DecidableEq, Repr

/-! ## Schemas (`app/schemas/auth.py`) -/

/-- `UserCreate`, the registration request body (after pydantic
validation). -/
structure UserCreate where
  email : String
  username : Option String
  phone : Option String
  firstName : Option String
  lastName : Option String
  dateOfBirth : Option Nat
  gender : Option String
  schoolId : Nat
  campusId : Option Nat
  roleId : Nat
  password : String
deriving DecidableEq, Repr

/-- `UserResponse`, the user summary returned by register / login /
refresh (sensitive fields excluded). -/
structure UserResponse where
  email : String
  username : Option String
  phone : Option String
  firstName : Option String
  lastName : Option String
  dateOfBirth : Option Nat
  gender : Option String
  id : Nat
  schoolId : Nat
  campusId : Option Nat
  roleId : Nat
  isActive : Bool
  isVerified : Bool
  createdAt : Nat
  updatedAt : Nat
  lastLogin : Option Nat
  profilePicture : Option String
deriving DecidableEq, Repr

/-- `UserResponse.model_validate(user)`. -/
def UserResponse.ofUser (u : User) : UserResponse :=
  { email := u.email, username := u.username, phone := u.phone
    firstName := u.firstName, lastName := u.lastName
    dateOfBirth := u.dateOfBirth, gender := u.gender
    id := u.id, schoolId := u.schoolId, campusId := u.campusId
    roleId := u.roleId, isActive := u.isActive, isVerified := u.isVerified
    createdAt := u.createdAt, updatedAt := u.updatedAt
    lastLogin := u.lastLogin, profilePicture := u.profilePicture }

/-- The serialized form of a `UserResponse`: exactly the declared fields of
the pydantic model, as key/value pairs. -/
def UserResponse.toJson (r : UserResponse) : List (String × JVal) :=
  [("email", .str r.email), ("username", .ofOptStr r.username),
   ("phone", .ofOptStr r.phone), ("first_name", .ofOptStr r.firstName),
   ("last_name", .ofOptStr r.lastName), ("date_of_birth", .ofOptNum r.dateOfBirth),
   ("gender", .ofOptStr r.gender), ("id", .num r.id),
   ("school_id", .num r.schoolId), ("campus_id", .ofOptNum r.campusId),
   ("role_id", .num r.roleId), ("is_active", .boolVal r.isActive),
   ("is_verified", .boolVal r.isVerified), ("created_at", .num r.createdAt),
   ("updated_at", .num r.updatedAt), ("last_login", .ofOptNum r.lastLogin),
   ("profile_picture", .ofOptStr r.profilePicture)]

/-- `TokenResponse`, returned by login and refresh. -/
structure TokenResponse where
  accessToken : Jwt
  refreshToken : Jwt
  tokenType : String
  expiresIn : Nat
  refreshExpiresIn : Nat
  user : UserResponse
deriving DecidableEq, Repr

/-! ## Authentication dependency (`app/api/deps.py`) -/

/-- `get_current_user`: verify the bearer token, read `sub`, load the user
(the string subject is compared against the numeric primary key, which the
database coerces), and require an active account.  No `type` claim is
inspected. -/
def getCurrentUser (users : List User) (secret : String) (now : Nat)
    (token : Jwt) : Except HttpError User :=
  match verifyToken secret now token with
  | none => .error ⟨401, "Invalid authentication credentials"⟩
  | some payload =>
    match payload.sub with
    | none => .error ⟨401, "Invalid authentication credentials"⟩
    | some userId =>
      match users.find? (fun u => decide (toString u.id = userId)) with
      | none => .error ⟨401, "User not found"⟩
      | some user =>
        if user.isActive then .ok user
        else .error ⟨400, "Inactive user account"⟩

/-! ## Auth endpoints (`app/api/v1/endpoints/auth.py`) -/

/-- The row update applied on a failed password verification: increment the
counter, then lock for 30 minutes once it has reached 5. -/
def loginFailUpdate (now : Nat) (u : User) : User :=
  let u1 := u.incrementFailedLoginAttempts
  if u1.failedLoginAttempts ≥ 5 then u1.lockAccount 30 now else u1

/-- The row update applied on a successful login:
`reset_failed_login_attempts` followed by `update_last_login`. -/
def loginSuccessUpdate (now : Nat) (u : User) : User :=
  (u.resetFailedLoginAttempts).updateLastLogin now

/-- `login`: the `/auth/login` endpoint.  Returns the response (or the
raised `HTTPException`) together with the connection state after the
request, `get_db` rollback included. -/
def login (st : Settings) (conn : DbConn) (now : Nat)
    (email password ip userAgent : String) :
    Except HttpError TokenResponse × DbConn :=
  let email := sanitizeInput email
  let db := conn.pending
  match db.users.find? (fun u => decide (u.email = email)) with
  | none => (.error ⟨401, "Invalid email or password"⟩, conn.rollback)
  | some user =>
    if !(user.canLogin now) && !user.isActive then
      (.error ⟨400, "Account is deactivated"⟩, conn.rollback)
    else if !(user.canLogin now) && user.isLocked now then
      (.error ⟨400, "Account is temporarily locked"⟩, conn.rollback)
    else if !(verifyPassword password user.hashedPassword) then
      let db1 := { db with users := updateUserRow db.users user.id (loginFailUpdate now) }
      let conn1 := DbConn.commit { conn with pending := db1 }
      (.error ⟨401, "Invalid email or password"⟩, conn1.rollback)
    else
      let accessToken := createAccessToken (toString user.id) now
        (st.accessTokenExpireMinutes * 60) st.secretKey
      let refreshTok := createRefreshToken (toString user.id) now
        (st.refreshTokenExpireDays * 24 * 60 * 60) st.secretKey
      let newSession : UserSession :=
        { id := db.nextSessionId, userId := user.id
          sessionToken := accessToken, refreshToken := refreshTok
          ipAddress := ip, userAgent := userAgent, isActive := true
          expiresAt := now + st.refreshTokenExpireDays * 24 * 60 * 60
          createdAt := now, lastUsed := now }
      let db1 : Db :=
        { users := updateUserRow db.users user.id (loginSuccessUpdate now)
          sessions :=
            (db.sessions.map (fun s =>
              if decide (s.userId = user.id) && s.isActive then s.deactivate else s))
            ++ [newSession]
          nextUserId := db.nextUserId
          nextSessionId := db.nextSessionId + 1 }
      let conn1 := DbConn.commit { conn with pending := db1 }
      (.ok { accessToken := accessToken, refreshToken := refreshTok
             tokenType := "bearer"
             expiresIn := st.accessTokenExpireMinutes * 60
             refreshExpiresIn := st.refreshTokenExpireDays * 24 * 60 * 60
             user := UserResponse.ofUser (loginSuccessUpdate now user) },
       conn1)

/-- `refresh_token`: the `/auth/refresh` endpoint. -/
def refreshTokenOp (st : Settings) (conn : DbConn) (now : Nat)
    (refreshTok : Jwt) : Except HttpError TokenResponse × DbConn :=
  let db := conn.pending
  match verifyToken st.secretKey now refreshTok with
  | none => (.error ⟨401, "Invalid refresh token"⟩, conn.rollback)
  | some payload =>
    if payload.type ≠ some "refresh" then
      (.error ⟨401, "Invalid token type"⟩, conn.rollback)
    else
      match payload.sub with
      | none => (.error ⟨401, "Invalid token payload"⟩, conn.rollback)
      | some userId =>
        match db.sessions.find? (fun s =>
            decide (s.refreshToken = refreshTok) && s.isActive) with
        | none => (.error ⟨401, "Invalid refresh token"⟩, conn.rollback)
        | some session =>
          if session.isExpired now then
            let db1 := { db with sessions := db.sessions.map (fun s =>
              if s.id = session.id then s.deactivate else s) }
            let conn1 := DbConn.commit { conn with pending := db1 }
            (.error ⟨401, "Refresh token expired"⟩, conn1.rollback)
          else
            match db.users.find? (fun u => decide (toString u.id = userId)) with
            | none => (.error ⟨401, "User not found or inactive"⟩, conn.rollback)
            | some user =>
              if !(user.canLogin now) then
                (.error ⟨401, "User not found or inactive"⟩, conn.rollback)
              else
                let newAccess := createAccessToken (toString user.id) now
                  (st.accessTokenExpireMinutes * 60) st.secretKey
                let newRefresh := createRefreshToken (toString user.id) now
                  (st.refreshTokenExpireDays * 24 * 60 * 60) st.secretKey
                let db1 := { db with sessions := db.sessions.map (fun s =>
                  if s.id = session.id then
                    { s with sessionToken := newAccess, refreshToken := newRefresh
                             expiresAt := now + st.refreshTokenExpireDays * 24 * 60 * 60
                             lastUsed := now }
                  else if decide (s.userId = user.id) && s.isActive then s.deactivate
                  else s) }
                let conn1 := DbConn.commit { conn with pending := db1 }
                (.ok { accessToken := newAccess, refreshToken := newRefresh
                       tokenType := "bearer"
                       expiresIn := st.accessTokenExpireMinutes * 60
                       refreshExpiresIn := st.refreshTokenExpireDays * 24 * 60 * 60
                       user := UserResponse.ofUser user },
                 conn1)

/-- `logout`: authenticates via `get_current_user`, then deactivates the
matching active session if any; returns the confirmation message either
way. -/
def logout (st : Settings) (conn : DbConn) (now : Nat) (token : Jwt) :
    Except HttpError String × DbConn :=
  match getCurrentUser conn.pending.users st.secretKey now token with
  | .error e => (.error e, conn.rollback)
  | .ok user =>
    match conn.pending.sessions.find? (fun s =>
        decide (s.sessionToken = token) && decide (s.userId = user.id) && s.isActive) with
    | none => (.ok "Successfully logged out", conn)
    | some session =>
      let db1 := { conn.pending with sessions := conn.pending.sessions.map (fun s =>
        if s.id = session.id then s.deactivate else s) }
      (.ok "Successfully logged out", DbConn.commit { conn with pending := db1 })

/-- `verify_email`: consume the stored verification token. -/
def verifyEmail (conn : DbConn) (token : String) :
    Except HttpError String × DbConn :=
  let db := conn.pending
  match db.users.find? (fun u => decide (u.emailVerificationToken = some token)) with
  | none => (.error ⟨400, "Invalid verification token"⟩, conn.rollback)
  | some user =>
    if user.isVerified then
      (.error ⟨400, "Email already verified"⟩, conn.rollback)
    else
      let db1 := { db with users := updateUserRow db.users user.id (fun u =>
        { u with isVerified := true, emailVerificationToken := none }) }
      (.ok "Email verified successfully", DbConn.commit { conn with pending := db1 })

/-- `request_password_reset`: when the email matches a user, store a fresh
reset token with a 24h expiry; the response message is the same in both
branches.  `resetToken` stands for the freshly generated
`generate_secure_token()`. -/
def requestPasswordReset (conn : DbConn) (now : Nat) (email resetToken : String) :
    String × DbConn :=
  let email := sanitizeInput email
  let db := conn.pending
  match db.users.find? (fun u => decide (u.email = email)) with
  | some user =>
    let db1 := { db with users := updateUserRow db.users user.id (fun u =>
      { u with passwordResetToken := some resetToken
               passwordResetExpires := some (now + 24 * 60 * 60) }) }
    ("If the email exists, a password reset link has been sent",
     DbConn.commit { conn with pending := db1 })
  | none =>
    ("If the email exists, a password reset link has been sent", conn)

/-- The guard `user.password_reset_expires and datetime.now() >
user.password_reset_expires`: expired only when a timestamp is stored and
it is strictly in the past. -/
def resetTokenExpired (now : Nat) (expires : Option Nat) : Bool :=
  match expires with
  | some e => decide (now > e)
  | none => false

/-- `reset_password`: validate the new password, find the user holding the
reset token, check the expiry only when one is stored, then update the
hash and clear token and expiry. -/
def resetPassword (conn : DbConn) (now : Nat) (token newPassword : String) :
    Except HttpError String × DbConn :=
  match validatePasswordStrengthDep newPassword with
  | some e => (.error e, conn.rollback)
  | none =>
    let db := conn.pending
    match db.users.find? (fun u => decide (u.passwordResetToken = some token)) with
    | none => (.error ⟨400, "Invalid reset token"⟩, conn.rollback)
    | some user =>
      if resetTokenExpired now user.passwordResetExpires then
        (.error ⟨400, "Reset token expired"⟩, conn.rollback)
      else
        let db1 := { db with users := updateUserRow db.users user.id (fun u =>
          { u with hashedPassword := getPasswordHash newPassword
                   passwordResetToken := none
                   passwordResetExpires := none }) }
        (.ok "Password reset successfully", DbConn.commit { conn with pending := db1 })

/-- `register`: the `/auth/register` endpoint.  `verificationToken` stands
for the freshly generated `generate_secure_token()`.  On success the
response is `UserResponse.model_validate(new_user)` — a user summary with
no token fields. -/
def register (conn : DbConn) (now : Nat) (input : UserCreate)
    (verificationToken : String) : Except HttpError UserResponse × DbConn :=
  let email := sanitizeInput input.email
  let username := sanitizeOptInput input.username
  let firstName := input.firstName.map (fun s => if s = "" then s else sanitizeInput s)
  let lastName := input.lastName.map (fun s => if s = "" then s else sanitizeInput s)
  match validatePasswordStrengthDep input.password with
  | some e => (.error e, conn.rollback)
  | none =>
    let db := conn.pending
    match db.users.find? (fun u =>
        decide (u.email = email) || decide (u.username = some username)) with
    | some existing =>
      if existing.email = email then
        (.error ⟨400, "Email already registered"⟩, conn.rollback)
      else
        (.error ⟨400, "Username already taken"⟩, conn.rollback)
    | none =>
      let newUser : User :=
        { id := db.nextUserId
          schoolId := input.schoolId, campusId := input.campusId
          roleId := input.roleId
          email := email, username := some username, phone := input.phone
          hashedPassword := getPasswordHash input.password
          firstName := firstName, lastName := lastName
          dateOfBirth := input.dateOfBirth, gender := input.gender
          profilePicture := none
          isActive := true, isVerified := false
          failedLoginAttempts := 0, lockedUntil := none
          emailVerificationToken := some verificationToken
          passwordResetToken := none, passwordResetExpires := none
          createdAt := now, updatedAt := now, lastLogin := none }
      let db1 := { db with users := db.users ++ [newUser]
                           nextUserId := db.nextUserId + 1 }
      (.ok (UserResponse.ofUser newUser), DbConn.commit { conn with pending := db1 })

/-- Whether an `Except` result is a success. -/
def exceptIsOk {ε α : Type} : Except ε α → Bool
  | .ok _ => true
  | .error _ => false

/-! ## General helper lemmas -/

/-- `find?` commutes with a map that does not change the predicate's
verdict on any element. -/
theorem find?_map_pres {α : Type} (g : α → α) (p : α → Bool)
    (hp : ∀ x, p (g x) = p x) :
    ∀ l : List α, (l.map g).find? p = (l.find? p).map g := by
  intro l
  induction l with
  | nil => rfl
  | cons a t ih =>
    simp only [List.map_cons, List.find?]
    rw [hp a]
    cases h : p a <;> simp [ih]

/-- A list with at most one element satisfying `p` has all its
`p`-satisfying members equal. -/
theorem countP_le_one_unique {α : Type} (p : α → Bool) :
    ∀ l : List α, l.countP p ≤ 1 →
      ∀ a b : α, a ∈ l → b ∈ l → p a = true → p b = true → a = b := by
  intro l
  induction l with
  | nil => intro _ a b ha; exact absurd ha (List.not_mem_nil a)
  | cons x t ih =>
    intro hcount a b ha hb hpa hpb
    rw [List.countP_cons] at hcount
    rcases List.mem_cons.mp ha with rfl | hat
    · rcases List.mem_cons.mp hb with rfl | hbt
      · rfl
      · exfalso
        have h1 : 0 < t.countP p := List.countP_pos_iff.mpr ⟨b, hbt, hpb⟩
        rw [hpa, if_pos rfl] at hcount
        omega
    · rcases List.mem_cons.mp hb with rfl | hbt
      · exfalso
        have h1 : 0 < t.countP p := List.countP_pos_iff.mpr ⟨a, hat, hpa⟩
        rw [hpb, if_pos rfl] at hcount
        omega
      · refine ih ?_ a b hat hbt hpa hpb
        cases h : p x
        · rw [h, if_neg Bool.false_ne_true] at hcount
          omega
        · rw [h, if_pos rfl] at hcount
          omega

/-- After deactivating every active session of a user, no session of that
user is active. -/
theorem filter_deactivate_all (uid : Nat) :
    ∀ l : List UserSession,
      (l.map (fun s => if decide (s.userId = uid) && s.isActive then s.deactivate else s)).filter
        (fun s => decide (s.userId = uid) && s.isActive) = [] := by
  intro l
  induction l with
  | nil => rfl
  | cons a t ih =>
    simp only [List.map_cons, List.filter_cons]
    by_cases h : (decide (a.userId = uid) && a.isActive) = true
    · rw [if_pos h]
      have hd : (decide ((UserSession.deactivate a).userId = uid) &&
          (UserSession.deactivate a).isActive) = false := by
        simp [UserSession.deactivate]
      rw [hd, if_neg Bool.false_ne_true]
      exact ih
    · rw [if_neg h]
      rw [eq_false_of_ne_true h, if_neg Bool.false_ne_true]
      exact ih

/-- Rotate-or-deactivate over a list that does not contain the rotated
session id leaves no active session of the user. -/
theorem filter_rotate_aux (sid uid : Nat) (rotF : UserSession → UserSession) :
    ∀ t : List UserSession, (∀ s ∈ t, s.id ≠ sid) →
      (t.map (fun s => if s.id = sid then rotF s
          else if decide (s.userId = uid) && s.isActive then s.deactivate else s)).filter
        (fun s => decide (s.userId = uid) && s.isActive) = [] := by
  intro t
  induction t with
  | nil => intro _; rfl
  | cons a t ih =>
    intro hne
    have hna : a.id ≠ sid := hne a (List.mem_cons_self a t)
    simp only [List.map_cons, List.filter_cons]
    rw [if_neg hna]
    by_cases h : (decide (a.userId = uid) && a.isActive) = true
    · rw [if_pos h]
      have hd : (decide ((UserSession.deactivate a).userId = uid) &&
          (UserSession.deactivate a).isActive) = false := by
        simp [UserSession.deactivate]
      rw [hd, if_neg Bool.false_ne_true]
      exact ih (fun s hs => hne s (List.mem_cons_of_mem a hs))
    · rw [if_neg h, eq_false_of_ne_true h, if_neg Bool.false_ne_true]
      exact ih (fun s hs => hne s (List.mem_cons_of_mem a hs))

/-- Rotating one session of a user and deactivating the others leaves
exactly the rotated session active for that user (session ids must be
unique, as for a primary key). -/
theorem filter_rotate (uid : Nat) (rotF : UserSession → UserSession)
    (hrotU : ∀ x, (rotF x).userId = x.userId)
    (hrotA : ∀ x, (rotF x).isActive = x.isActive) :
    ∀ (l : List UserSession) (sess : UserSession),
      sess ∈ l → (l.map UserSession.id).Nodup →
      sess.userId = uid → sess.isActive = true →
      (l.map (fun s => if s.id = sess.id then rotF s
          else if decide (s.userId = uid) && s.isActive then s.deactivate else s)).filter
        (fun s => decide (s.userId = uid) && s.isActive) = [rotF sess] := by
  intro l
  induction l with
  | nil => intro sess hmem; exact absurd hmem (List.not_mem_nil sess)
  | cons a t ih =>
    intro sess hmem hnodup hU hA
    rw [List.map_cons, List.nodup_cons] at hnodup
    obtain ⟨hna, hnt⟩ := hnodup
    rcases List.mem_cons.mp hmem with rfl | hmt
    · simp only [List.map_cons, List.filter_cons]
      rw [if_pos True.intro]
      have hkeep : (decide ((rotF sess).userId = uid) && (rotF sess).isActive) = true := by
        rw [hrotU, hrotA, hU, hA]
        simp
      rw [hkeep, if_pos rfl]
      have htail := filter_rotate_aux sess.id uid rotF t
        (fun s hs he => hna (he ▸ List.mem_map_of_mem UserSession.id hs))
      rw [htail]
    · have hne : a.id ≠ sess.id := by
        intro he
        exact hna (he ▸ List.mem_map_of_mem UserSession.id hmt)
      simp only [List.map_cons, List.filter_cons]
      rw [if_neg hne]
      by_cases h : (decide (a.userId = uid) && a.isActive) = true
      · rw [if_pos h]
        have hd : (decide ((UserSession.deactivate a).userId = uid) &&
            (UserSession.deactivate a).isActive) = false := by
          simp [UserSession.deactivate]
        rw [hd, if_neg Bool.false_ne_true]
        exact ih sess hmt hnt hU hA
      · rw [if_neg h, eq_false_of_ne_true h, if_neg Bool.false_ne_true]
        exact ih sess hmt hnt hU hA

/-- The failed-login row update does not change the email. -/
theorem loginFailUpdate_email (now : Nat) (x : User) :
    (loginFailUpdate now x).email = x.email := by
  simp only [loginFailUpdate, User.incrementFailedLoginAttempts, User.lockAccount]
  split <;> rfl

/-- The successful-login row update does not change the email. -/
theorem loginSuccessUpdate_email (now : Nat) (x : User) :
    (loginSuccessUpdate now x).email = x.email := rfl

/-! ## Sample data for the witnesses and counterexamples -/

/-- An empty store. -/
def emptyDb : Db := { users := [], sessions := [], nextUserId := 1, nextSessionId := 1 }

/-- A fresh connection on an empty store. -/
def emptyConn : DbConn := ⟨emptyDb, emptyDb⟩

/-- Deployment-style settings with the documented default TTLs. -/
def sampleSettings : Settings :=
  { secretKey := "test-secret-key-0123456789abcdef"
    accessTokenExpireMinutes := 30
    refreshTokenExpireDays := 7 }

/-- A registered, active, unlocked user. -/
def sampleUser : User :=
  { id := 1, schoolId := 1, campusId := none, roleId := 1
    email := "a@x.com", username := some "alice", phone := none
    hashedPassword := getPasswordHash "Secret1!"
    firstName := none, lastName := none, dateOfBirth := none, gender := none
    profilePicture := none, isActive := true, isVerified := false
    failedLoginAttempts := 0, lockedUntil := none
    emailVerificationToken := none, passwordResetToken := none
    passwordResetExpires := none, createdAt := 0, updatedAt := 0, lastLogin := none }

/-! ## C6 — anti-enumeration of password-reset requests -/

/-- C6: two request-password-reset calls, one whose email matches an
existing user and one whose email matches no user, produce the identical
caller-visible response message, so the response does not reveal whether
the email exists. -/
theorem c6_request_reset_anti_enumeration
    (conn1 : DbConn) (now1 : Nat) (email1 rt1 : String)
    (conn2 : DbConn) (now2 : Nat) (email2 rt2 : String)
    (hexists : conn1.pending.users.find?
      (fun u => decide (u.email = sanitizeInput email1)) ≠ none)
    (habsent : conn2.pending.users.find?
      (fun u => decide (u.email = sanitizeInput email2)) = none) :
    (requestPasswordReset conn1 now1 email1 rt1).1 =
      (requestPasswordReset conn2 now2 email2 rt2).1 := by
  unfold requestPasswordReset
  cases h1 : conn1.pending.users.find? (fun u => decide (u.email = sanitizeInput email1)) with
  | none => exact absurd h1 hexists
  | some u => simp [h1, habsent]

/-- Witness for C6 at a concrete store: `a@x.com` exists, `b@x.com` does
not, and the two responses coincide. -/
theorem c6_witness :
    (DbConn.mk ⟨[sampleUser], [], 2, 1⟩ ⟨[sampleUser], [], 2, 1⟩).pending.users.find?
        (fun u => decide (u.email = sanitizeInput "a@x.com")) ≠ none ∧
    emptyConn.pending.users.find? (fun u => decide (u.email = sanitizeInput "b@x.com")) = none ∧
    (requestPasswordReset (DbConn.mk ⟨[sampleUser], [], 2, 1⟩ ⟨[sampleUser], [], 2, 1⟩)
        10 "a@x.com" "rt1").1 =
      (requestPasswordReset emptyConn 20 "b@x.com" "rt2").1 :=
  ⟨by decide, by decide,
   c6_request_reset_anti_enumeration
     (DbConn.mk ⟨[sampleUser], [], 2, 1⟩ ⟨[sampleUser], [], 2, 1⟩) 10 "a@x.com" "rt1"
     emptyConn 20 "b@x.com" "rt2" (by decide) (by decide)⟩

/-! ## C10 — a null reset expiry skips the expiry check -/

/-- C10: when the stored password-reset token matches and the stored
expiry timestamp is null, `reset_password` succeeds for every current
time: it updates the password hash and clears the token, and the expiry
comparison is never performed. -/
theorem c10_null_expiry_skips_check
    (conn : DbConn) (now : Nat) (tok pw : String) (u : User)
    (hpw : validatePasswordStrengthDep pw = none)
    (hfind : conn.pending.users.find?
      (fun x => decide (x.passwordResetToken = some tok)) = some u)
    (hexp : u.passwordResetExpires = none) :
    (resetPassword conn now tok pw).1 = .ok "Password reset successfully" ∧
    ∀ v ∈ (resetPassword conn now tok pw).2.committed.users,
      v.id = u.id →
        v.hashedPassword = getPasswordHash pw ∧ v.passwordResetToken = none := by
  have hrun : resetPassword conn now tok pw =
      (.ok "Password reset successfully",
       DbConn.commit { conn with pending := { conn.pending with
         users := updateUserRow conn.pending.users u.id (fun x =>
           { x with hashedPassword := getPasswordHash pw
                    passwordResetToken := none
                    passwordResetExpires := none }) } }) := by
    simp [resetPassword, hpw, hfind, hexp, resetTokenExpired]
  rw [hrun]
  refine ⟨rfl, ?_⟩
  intro v hv hid
  simp only [DbConn.commit, updateUserRow] at hv
  rcases List.mem_map.mp hv with ⟨w, _, rfl⟩
  by_cases hw : w.id = u.id
  · rw [if_pos hw]
    exact ⟨rfl, rfl⟩
  · rw [if_neg hw] at hid
    exact absurd hid hw

/-- The store used by the C10 witness: one user holding reset token
`tok1` with no stored expiry. -/
def c10Db : Db :=
  { users := [{ sampleUser with passwordResetToken := some "tok1" }]
    sessions := [], nextUserId := 2, nextSessionId := 1 }

/-- Witness for C10: with a null expiry the reset succeeds at an arbitrary
late time and rewrites the credential. -/
theorem c10_witness :
    validatePasswordStrengthDep "NewPass1!" = none ∧
    (DbConn.mk c10Db c10Db).pending.users.find?
        (fun x => decide (x.passwordResetToken = some "tok1")) =
      some { sampleUser with passwordResetToken := some "tok1" } ∧
    (resetPassword (DbConn.mk c10Db c10Db) 999999 "tok1" "NewPass1!").1 =
      .ok "Password reset successfully" :=
  ⟨by decide, by decide,
   (c10_null_expiry_skips_check (DbConn.mk c10Db c10Db) 999999 "tok1" "NewPass1!"
     { sampleUser with passwordResetToken := some "tok1" }
     (by decide) (by decide) rfl).1⟩

/-! ## C7 — single-use reset and verification tokens -/

/-- Clearing a consumed token on the holder's row leaves no row satisfying
the holder predicate, provided the holder was unique. -/
theorem no_holder_after_clear (users : List User) (uid : Nat) (p : User → Bool)
    (f : User → User)
    (hclear : ∀ x, p (f x) = false)
    (huniq : ∀ v ∈ users, p v = true → v.id = uid) :
    ∀ v ∈ updateUserRow users uid f, p v = false := by
  intro v hv
  rcases List.mem_map.mp hv with ⟨w, hw, rfl⟩
  by_cases h : w.id = uid
  · rw [if_pos h]
    exact hclear w
  · rw [if_neg h]
    cases hp : p w
    · rfl
    · exact absurd (huniq w hw hp) h

/-- C7: a stored password-reset or email-verification token is single-use:
one successful `reset_password` (resp. `verify_email`) call clears the
stored token, and a second call presenting the same token value fails with
a 400 `BadRequestError`. -/
theorem c7_single_use_tokens :
    (∀ (conn : DbConn) (now now2 : Nat) (tok pw pw2 : String) (u : User),
      validatePasswordStrengthDep pw = none →
      validatePasswordStrengthDep pw2 = none →
      conn.pending.users.find?
        (fun x => decide (x.passwordResetToken = some tok)) = some u →
      (∀ e, u.passwordResetExpires = some e → now ≤ e) →
      (∀ v ∈ conn.pending.users, v.passwordResetToken = some tok → v.id = u.id) →
      (resetPassword conn now tok pw).1 = .ok "Password reset successfully" ∧
      (∀ v ∈ (resetPassword conn now tok pw).2.committed.users,
        v.passwordResetToken ≠ some tok) ∧
      (resetPassword (resetPassword conn now tok pw).2 now2 tok pw2).1 =
        .error ⟨400, "Invalid reset token"⟩) ∧
    (∀ (conn : DbConn) (tok : String) (u : User),
      conn.pending.users.find?
        (fun x => decide (x.emailVerificationToken = some tok)) = some u →
      u.isVerified = false →
      (∀ v ∈ conn.pending.users, v.emailVerificationToken = some tok → v.id = u.id) →
      (verifyEmail conn tok).1 = .ok "Email verified successfully" ∧
      (∀ v ∈ (verifyEmail conn tok).2.committed.users,
        v.emailVerificationToken ≠ some tok) ∧
      (verifyEmail (verifyEmail conn tok).2 tok).1 =
        .error ⟨400, "Invalid verification token"⟩) := by
  constructor
  · intro conn now now2 tok pw pw2 u hpw hpw2 hfind hexp huniq
    have hexpired : resetTokenExpired now u.passwordResetExpires = false := by
      cases hE : u.passwordResetExpires with
      | none => rfl
      | some e =>
        have := hexp e hE
        simp only [resetTokenExpired, decide_eq_false_iff_not]
        omega
    have hrun : resetPassword conn now tok pw =
        (.ok "Password reset successfully",
         DbConn.commit { conn with pending := { conn.pending with
           users := updateUserRow conn.pending.users u.id (fun x =>
             { x with hashedPassword := getPasswordHash pw
                      passwordResetToken := none
                      passwordResetExpires := none }) } }) := by
      simp [resetPassword, hpw, hfind, hexpired]
    have hcleared : ∀ v ∈ updateUserRow conn.pending.users u.id (fun x =>
        { x with hashedPassword := getPasswordHash pw
                 passwordResetToken := none
                 passwordResetExpires := none }),
        (fun v => decide (v.passwordResetToken = some tok)) v = false := by
      refine no_holder_after_clear _ _ _ _ (fun x => by simp) ?_
      intro v hv hp
      exact huniq v hv (of_decide_eq_true hp)
    refine ⟨by rw [hrun], ?_, ?_⟩
    · rw [hrun]
      intro v hv
      have := hcleared v hv
      simpa using this
    · rw [hrun]
      have hnone : (DbConn.commit { conn with pending := { conn.pending with
          users := updateUserRow conn.pending.users u.id (fun x =>
            { x with hashedPassword := getPasswordHash pw
                     passwordResetToken := none
                     passwordResetExpires := none }) } }).pending.users.find?
          (fun x => decide (x.passwordResetToken = some tok)) = none := by
        rw [List.find?_eq_none]
        intro v hv
        have := hcleared v hv
        simp only [this]
        exact Bool.false_ne_true
      simp [resetPassword, hpw2, hnone]
  · intro conn tok u hfind hver huniq
    have hrun : verifyEmail conn tok =
        (.ok "Email verified successfully",
         DbConn.commit { conn with pending := { conn.pending with
           users := updateUserRow conn.pending.users u.id (fun x =>
             { x with isVerified := true, emailVerificationToken := none }) } }) := by
      simp [verifyEmail, hfind, hver]
    have hcleared : ∀ v ∈ updateUserRow conn.pending.users u.id (fun x =>
        { x with isVerified := true, emailVerificationToken := none }),
        (fun v => decide (v.emailVerificationToken = some tok)) v = false := by
      refine no_holder_after_clear _ _ _ _ (fun x => by simp) ?_
      intro v hv hp
      exact huniq v hv (of_decide_eq_true hp)
    refine ⟨by rw [hrun], ?_, ?_⟩
    · rw [hrun]
      intro v hv
      have := hcleared v hv
      simpa using this
    · rw [hrun]
      have hnone : (DbConn.commit { conn with pending := { conn.pending with
          users := updateUserRow conn.pending.users u.id (fun x =>
            { x with isVerified := true, emailVerificationToken := none }) } }).pending.users.find?
          (fun x => decide (x.emailVerificationToken = some tok)) = none := by
        rw [List.find?_eq_none]
        intro v hv
        have := hcleared v hv
        simp only [this]
        exact Bool.false_ne_true
      simp [verifyEmail, hnone]

/-- The store used by the C7 witness: one user holding reset token
`tokA` (expiring at 2000) and verification token `tokB`. -/
def c7Db : Db :=
  { users := [{ sampleUser with passwordResetToken := some "tokA"
                                passwordResetExpires := some 2000
                                emailVerificationToken := some "tokB" }]
    sessions := [], nextUserId := 2, nextSessionId := 1 }

/-- Witness for C7: at a concrete store both flows consume their token on
the first call and reject the second call with a 400. -/
theorem c7_witness :
    (resetPassword (DbConn.mk c7Db c7Db) 100 "tokA" "NewPass1!").1 =
      .ok "Password reset successfully" ∧
    (resetPassword (resetPassword (DbConn.mk c7Db c7Db) 100 "tokA" "NewPass1!").2
        150 "tokA" "NewPass2!").1 = .error ⟨400, "Invalid reset token"⟩ ∧
    (verifyEmail (DbConn.mk c7Db c7Db) "tokB").1 = .ok "Email verified successfully" ∧
    (verifyEmail (verifyEmail (DbConn.mk c7Db c7Db) "tokB").2 "tokB").1 =
      .error ⟨400, "Invalid verification token"⟩ := by
  have hA := c7_single_use_tokens.1 (DbConn.mk c7Db c7Db) 100 150 "tokA" "NewPass1!" "NewPass2!"
    { sampleUser with passwordResetToken := some "tokA"
                      passwordResetExpires := some 2000
                      emailVerificationToken := some "tokB" }
    (by decide) (by decide) (by decide)
    (by intro e he; injection he with h; omega) (by decide)
  have hB := c7_single_use_tokens.2 (DbConn.mk c7Db c7Db) "tokB"
    { sampleUser with passwordResetToken := some "tokA"
                      passwordResetExpires := some 2000
                      emailVerificationToken := some "tokB" }
    (by decide) (by decide) (by decide)
  exact ⟨hA.1, hA.2.2, hB.1, hB.2.2⟩


/-! ## C1 — token-type confusion at the access-token check -/

/-- Counterexample for C1: a validly signed, unexpired refresh token
(`type = "refresh"`, minted at 100 with a 7-day TTL, checked at 150) whose
subject is an existing active user is accepted by `get_current_user`, not
rejected: the dependency never inspects the `type` discriminator. -/
theorem c1_counterexample :
    getCurrentUser [sampleUser] sampleSettings.secretKey 150
        (createRefreshToken (toString sampleUser.id) 100 604800 sampleSettings.secretKey) =
      Except.ok sampleUser ∧
    (createRefreshToken (toString sampleUser.id) 100 604800
        sampleSettings.secretKey).claims.type = some "refresh" :=
  ⟨rfl, rfl⟩

/-- C1 amended: `get_current_user` ignores the `type` discriminator, so a
valid unexpired refresh token whose subject resolves to an existing active
user is accepted by the access-token-only check; the discriminator is
enforced only in the opposite direction — the refresh endpoint rejects any
verified token whose payload does not carry `type = "refresh"` (such as an
access token). -/
theorem c1_amended :
    (∀ (users : List User) (secret : String) (now iat delta : Nat) (u : User),
      users.find? (fun x => decide (toString x.id = toString u.id)) = some u →
      u.isActive = true → now ≤ iat + delta →
      getCurrentUser users secret now
          (createRefreshToken (toString u.id) iat delta secret) = Except.ok u) ∧
    (∀ (st : Settings) (conn : DbConn) (now : Nat) (tok : Jwt) (p : Claims),
      verifyToken st.secretKey now tok = some p → p.type ≠ some "refresh" →
      (refreshTokenOp st conn now tok).1 = .error ⟨401, "Invalid token type"⟩) := by
  constructor
  · intro users secret now iat delta u hfind hact hexp
    have hlt : ¬ now > iat + delta := by omega
    simp [getCurrentUser, verifyToken, createRefreshToken, hlt, hfind, hact]
  · intro st conn now tok p hv htype
    simp [refreshTokenOp, hv, htype]

/-- Witness for the amended C1 on concrete data: the refresh token for
user 1 passes the access-token-only check, while an access token (no
`type` claim) is rejected by the refresh endpoint. -/
theorem c1_amended_witness :
    getCurrentUser [sampleUser] "s" 150
        (createRefreshToken (toString sampleUser.id) 100 604800 "s") =
      Except.ok sampleUser ∧
    (refreshTokenOp sampleSettings emptyConn 0
        (createAccessToken "1" 0 100 sampleSettings.secretKey)).1 =
      Except.error ⟨401, "Invalid token type"⟩ :=
  ⟨c1_amended.1 [sampleUser] "s" 150 100 604800 sampleUser (by decide) rfl (by omega),
   c1_amended.2 sampleSettings emptyConn 0
     (createAccessToken "1" 0 100 sampleSettings.secretKey)
     (createAccessToken "1" 0 100 sampleSettings.secretKey).claims
     (by decide) (by decide)⟩

/-! ## C8 — logout behaviour -/

/-- An active session for the sample user, bound to a valid access token. -/
def c8Session : UserSession :=
  { id := 1, userId := 1
    sessionToken := createAccessToken "1" 50 1800 sampleSettings.secretKey
    refreshToken := createRefreshToken "1" 50 604800 sampleSettings.secretKey
    ipAddress := "ip", userAgent := "ua", isActive := true
    expiresAt := 604850, createdAt := 50, lastUsed := 50 }

/-- The store used by the C8 counterexample and witness. -/
def c8Db : Db :=
  { users := [sampleUser], sessions := [c8Session], nextUserId := 2, nextSessionId := 2 }

/-- Counterexample for C8: with a bearer token that does not authenticate
(signed under a different key), the logout operation returns a 401 error
raised by the authentication dependency rather than the ok result — so
logout does not succeed for *every* bearer token. -/
theorem c8_counterexample :
    (logout sampleSettings (DbConn.mk c8Db c8Db) 100
        (Jwt.mk ⟨some "1", none, none⟩ "wrong-key")).1 =
      Except.error ⟨401, "Invalid authentication credentials"⟩ := rfl

/-! ## C9 — what a successful registration returns -/

/-- The registration request used by the C9 counterexample. -/
def c9Input : UserCreate :=
  { email := "b@x.com", username := some "bob", phone := none
    firstName := none, lastName := none, dateOfBirth := none, gender := none
    schoolId := 1, campusId := none, roleId := 1, password := "Secret1!" }

/-- A serialized `UserResponse` never contains an `access_token` field. -/
theorem userResponse_lookup_access (r : UserResponse) :
    (UserResponse.toJson r).lookup "access_token" = none := rfl

/-- A serialized `UserResponse` never contains a `refresh_token` field. -/
theorem userResponse_lookup_refresh (r : UserResponse) :
    (UserResponse.toJson r).lookup "refresh_token" = none := rfl

/-- Counterexample for C9: a successful registration (unique email and
username, valid password) returns the created user's id, but its response
carries no access token and no refresh token — the serialized response has
neither field. -/
theorem c9_counterexample :
    ((register emptyConn 50 c9Input "vtok").1.map (fun r =>
        (r.id, (UserResponse.toJson r).lookup "access_token",
         (UserResponse.toJson r).lookup "refresh_token"))) =
      Except.ok (1, none, none) := rfl

/-- C9 amended: a successful registration returns the created user's
summary — in particular the fresh user id — with no token pair; tokens are
only issued by the login and refresh endpoints. -/
theorem c9_amended (conn : DbConn) (now : Nat) (input : UserCreate) (vtok : String)
    (hpw : validatePasswordStrengthDep input.password = none)
    (hconflict : conn.pending.users.find? (fun u =>
        decide (u.email = sanitizeInput input.email) ||
        decide (u.username = some (sanitizeOptInput input.username))) = none) :
    ((register conn now input vtok).1.map UserResponse.id) =
      Except.ok conn.pending.nextUserId ∧
    ((register conn now input vtok).1.map (fun r =>
        (UserResponse.toJson r).lookup "access_token")) = Except.ok none ∧
    ((register conn now input vtok).1.map (fun r =>
        (UserResponse.toJson r).lookup "refresh_token")) = Except.ok none := by
  refine ⟨?_, ?_, ?_⟩ <;>
    simp [register, hpw, hconflict, UserResponse.ofUser, Except.map,
          userResponse_lookup_access, userResponse_lookup_refresh]

/-- Witness for the amended C9 on an empty store. -/
theorem c9_amended_witness :
    ((register emptyConn 50 c9Input "vtok").1.map UserResponse.id) = Except.ok 1 ∧
    ((register emptyConn 50 c9Input "vtok").1.map (fun r =>
        (UserResponse.toJson r).lookup "access_token")) = Except.ok none :=
  ⟨(c9_amended emptyConn 50 c9Input "vtok" (by decide) (by decide)).1,
   (c9_amended emptyConn 50 c9Input "vtok" (by decide) (by decide)).2.1⟩


/-! ## C3, C4, C5 — failed-login counting, lockout and lock expiry -/

/-- Updating the row of the found user with a predicate-preserving update
moves the `find?` result along the update. -/
theorem find_updated_user (users : List User) (u : User) (p : User → Bool)
    (f : User → User) (hf : ∀ x, p (f x) = p x)
    (hfind : users.find? p = some u) :
    (updateUserRow users u.id f).find? p = some (f u) := by
  have hp : ∀ x : User, p ((fun x => if x.id = u.id then f x else x) x) = p x := by
    intro x
    by_cases h : x.id = u.id
    · simp only [h, if_pos]
      exact hf x
    · simp [h]
  have hm := find?_map_pres (fun x => if x.id = u.id then f x else x) p hp users
  rw [updateUserRow, hm, hfind]
  simp

/-- The failed-login update adds exactly one to the counter. -/
theorem loginFailUpdate_count (now : Nat) (x : User) :
    (loginFailUpdate now x).failedLoginAttempts = x.failedLoginAttempts + 1 := by
  simp only [loginFailUpdate, User.incrementFailedLoginAttempts, User.lockAccount]
  split <;> rfl

/-- C3: for an active, unlocked user, a failed password verification at
login increments the failed-login counter by exactly one and, when the
counter reaches 5, locks the account until `now + 30` minutes; while the
lock is in force every login attempt — whatever the password — is rejected
with the "account locked" outcome and nothing is persisted (in particular
the counter is not incremented further). -/
theorem c3_lockout_state_machine :
    (∀ (st : Settings) (conn : DbConn) (now : Nat) (email pw ip ua : String) (u : User),
      conn.pending.users.find? (fun x => decide (x.email = sanitizeInput email)) = some u →
      u.isActive = true → u.isLocked now = false →
      verifyPassword pw u.hashedPassword = false →
      (login st conn now email pw ip ua).1 = .error ⟨401, "Invalid email or password"⟩ ∧
      (login st conn now email pw ip ua).2.committed.users.find?
          (fun x => decide (x.email = sanitizeInput email)) =
        some (loginFailUpdate now u) ∧
      (loginFailUpdate now u).failedLoginAttempts = u.failedLoginAttempts + 1 ∧
      (u.failedLoginAttempts + 1 = 5 →
        (loginFailUpdate now u).lockedUntil = some (now + 30 * 60))) ∧
    (∀ (st : Settings) (conn : DbConn) (now : Nat) (email pw ip ua : String) (u : User),
      conn.pending.users.find? (fun x => decide (x.email = sanitizeInput email)) = some u →
      u.isActive = true → u.isLocked now = true →
      (login st conn now email pw ip ua).1 = .error ⟨400, "Account is temporarily locked"⟩ ∧
      (login st conn now email pw ip ua).2.committed = conn.committed) := by
  constructor
  · intro st conn now email pw ip ua u hfind hact hlock hverify
    refine ⟨?_, ?_, loginFailUpdate_count now u, ?_⟩
    · simp [login, hfind, User.canLogin, hact, hlock, hverify]
    · have hone : (login st conn now email pw ip ua).2.committed.users =
          updateUserRow conn.pending.users u.id (loginFailUpdate now) := by
        simp [login, hfind, User.canLogin, hact, hlock, hverify, DbConn.commit, DbConn.rollback]
      rw [hone]
      refine find_updated_user conn.pending.users u _ _ ?_ hfind
      intro x
      simp [loginFailUpdate_email]
    · intro h5
      simp [loginFailUpdate, User.incrementFailedLoginAttempts, User.lockAccount, h5]
  · intro st conn now email pw ip ua u hfind hact hlock
    constructor
    · simp [login, hfind, User.canLogin, hact, hlock]
    · simp [login, hfind, User.canLogin, hact, hlock, DbConn.rollback]

/-- The store used by the C3 witness: the sample user with 4 failed
attempts (part one) and a locked variant (part two). -/
def c3Db : Db :=
  { users := [{ sampleUser with failedLoginAttempts := 4 }]
    sessions := [], nextUserId := 2, nextSessionId := 1 }

/-- A locked variant of the store for the C3 witness. -/
def c3LockedDb : Db :=
  { users := [{ sampleUser with failedLoginAttempts := 5, lockedUntil := some 10000 }]
    sessions := [], nextUserId := 2, nextSessionId := 1 }

/-- Witness for C3: a fifth consecutive failure locks until `now + 30`
minutes, and during the lock even the correct password is rejected. -/
theorem c3_witness :
    (login sampleSettings (DbConn.mk c3Db c3Db) 100 "a@x.com" "WrongPass1!" "ip" "ua").1 =
      .error ⟨401, "Invalid email or password"⟩ ∧
    (login sampleSettings (DbConn.mk c3Db c3Db) 100 "a@x.com" "WrongPass1!"
        "ip" "ua").2.committed.users.find?
        (fun x => decide (x.email = sanitizeInput "a@x.com")) =
      some (loginFailUpdate 100 { sampleUser with failedLoginAttempts := 4 }) ∧
    (loginFailUpdate 100 { sampleUser with failedLoginAttempts := 4 }).lockedUntil =
      some (100 + 30 * 60) ∧
    (login sampleSettings (DbConn.mk c3LockedDb c3LockedDb) 200 "a@x.com" "Secret1!"
        "ip" "ua").1 = .error ⟨400, "Account is temporarily locked"⟩ := by
  have ha := c3_lockout_state_machine.1 sampleSettings (DbConn.mk c3Db c3Db) 100
    "a@x.com" "WrongPass1!" "ip" "ua" { sampleUser with failedLoginAttempts := 4 }
    (by decide) rfl rfl (by decide)
  have hb := c3_lockout_state_machine.2 sampleSettings (DbConn.mk c3LockedDb c3LockedDb) 200
    "a@x.com" "Secret1!" "ip" "ua"
    { sampleUser with failedLoginAttempts := 5, lockedUntil := some 10000 }
    (by decide) rfl (by decide)
  exact ⟨ha.1, ha.2.1, ha.2.2.2 rfl, hb.1⟩

/-- C4: when login fails because the password does not verify, the
incremented counter (with the lock at the threshold) is committed before
the 401 error is returned, and the error-path rollback performed by the
session wrapper leaves that committed state untouched. -/
theorem c4_failure_side_effects_committed
    (st : Settings) (conn : DbConn) (now : Nat) (email pw ip ua : String) (u : User)
    (hfind : conn.pending.users.find?
      (fun x => decide (x.email = sanitizeInput email)) = some u)
    (hact : u.isActive = true) (hlock : u.isLocked now = false)
    (hverify : verifyPassword pw u.hashedPassword = false) :
    (login st conn now email pw ip ua).1 = .error ⟨401, "Invalid email or password"⟩ ∧
    (login st conn now email pw ip ua).2.committed.users.find?
        (fun x => decide (x.email = sanitizeInput email)) =
      some (loginFailUpdate now u) ∧
    ((login st conn now email pw ip ua).2).rollback = (login st conn now email pw ip ua).2 := by
  refine ⟨?_, ?_, ?_⟩
  · simp [login, hfind, User.canLogin, hact, hlock, hverify]
  · have hone : (login st conn now email pw ip ua).2.committed.users =
        updateUserRow conn.pending.users u.id (loginFailUpdate now) := by
      simp [login, hfind, User.canLogin, hact, hlock, hverify, DbConn.commit, DbConn.rollback]
    rw [hone]
    refine find_updated_user conn.pending.users u _ _ ?_ hfind
    intro x
    simp [loginFailUpdate_email]
  · simp [login, hfind, User.canLogin, hact, hlock, hverify, DbConn.commit, DbConn.rollback]

/-- Witness for C4 on a concrete store: the recorded failure survives the
error return and a subsequent rollback. -/
theorem c4_witness :
    (login sampleSettings (DbConn.mk ⟨[sampleUser], [], 2, 1⟩ ⟨[sampleUser], [], 2, 1⟩)
        10 "a@x.com" "WrongPass1!" "ip" "ua").1 =
      .error ⟨401, "Invalid email or password"⟩ ∧
    (login sampleSettings (DbConn.mk ⟨[sampleUser], [], 2, 1⟩ ⟨[sampleUser], [], 2, 1⟩)
        10 "a@x.com" "WrongPass1!" "ip" "ua").2.committed.users.find?
        (fun x => decide (x.email = sanitizeInput "a@x.com")) =
      some (loginFailUpdate 10 sampleUser) ∧
    ((login sampleSettings (DbConn.mk ⟨[sampleUser], [], 2, 1⟩ ⟨[sampleUser], [], 2, 1⟩)
        10 "a@x.com" "WrongPass1!" "ip" "ua").2).rollback =
      (login sampleSettings (DbConn.mk ⟨[sampleUser], [], 2, 1⟩ ⟨[sampleUser], [], 2, 1⟩)
        10 "a@x.com" "WrongPass1!" "ip" "ua").2 :=
  c4_failure_side_effects_committed sampleSettings
    (DbConn.mk ⟨[sampleUser], [], 2, 1⟩ ⟨[sampleUser], [], 2, 1⟩)
    10 "a@x.com" "WrongPass1!" "ip" "ua" sampleUser (by decide) rfl rfl (by decide)

/-- C5: once the stored lock timestamp is in the past, the next login
attempt is evaluated as if the account were active and unlocked, with the
counter keeping its old value: a wrong password increments it from the old
value, while the correct password logs the user in and resets it to 0
(also clearing the lock). -/
theorem c5_lock_expiry
    (st : Settings) (conn : DbConn) (now : Nat) (email pw ip ua : String)
    (u : User) (T : Nat)
    (hfind : conn.pending.users.find?
      (fun x => decide (x.email = sanitizeInput email)) = some u)
    (hact : u.isActive = true) (hlockT : u.lockedUntil = some T) (hT : T ≤ now) :
    (verifyPassword pw u.hashedPassword = false →
      (login st conn now email pw ip ua).1 = .error ⟨401, "Invalid email or password"⟩ ∧
      (login st conn now email pw ip ua).2.committed.users.find?
          (fun x => decide (x.email = sanitizeInput email)) =
        some (loginFailUpdate now u) ∧
      (loginFailUpdate now u).failedLoginAttempts = u.failedLoginAttempts + 1) ∧
    (verifyPassword pw u.hashedPassword = true →
      exceptIsOk (login st conn now email pw ip ua).1 = true ∧
      (login st conn now email pw ip ua).2.committed.users.find?
          (fun x => decide (x.email = sanitizeInput email)) =
        some (loginSuccessUpdate now u) ∧
      (loginSuccessUpdate now u).failedLoginAttempts = 0 ∧
      (loginSuccessUpdate now u).lockedUntil = none) := by
  have hlock : u.isLocked now = false := by
    simp only [User.isLocked, hlockT, decide_eq_false_iff_not]
    omega
  constructor
  · intro hverify
    refine ⟨?_, ?_, loginFailUpdate_count now u⟩
    · simp [login, hfind, User.canLogin, hact, hlock, hverify]
    · have hone : (login st conn now email pw ip ua).2.committed.users =
          updateUserRow conn.pending.users u.id (loginFailUpdate now) := by
        simp [login, hfind, User.canLogin, hact, hlock, hverify, DbConn.commit, DbConn.rollback]
      rw [hone]
      refine find_updated_user conn.pending.users u _ _ ?_ hfind
      intro x
      simp [loginFailUpdate_email]
  · intro hverify
    refine ⟨?_, ?_, rfl, rfl⟩
    · simp [login, hfind, User.canLogin, hact, hlock, hverify, exceptIsOk]
    · have hone : (login st conn now email pw ip ua).2.committed.users =
          updateUserRow conn.pending.users u.id (loginSuccessUpdate now) := by
        simp [login, hfind, User.canLogin, hact, hlock, hverify, DbConn.commit]
      rw [hone]
      refine find_updated_user conn.pending.users u _ _ ?_ hfind
      intro x
      simp [loginSuccessUpdate_email]

/-- The user of the C5 witness: lock expired at 50, three failures on
record. -/
def c5User : User :=
  { sampleUser with failedLoginAttempts := 3, lockedUntil := some 50 }

/-- The store used by the C5 witness. -/
def c5Db : Db :=
  { users := [c5User], sessions := [], nextUserId := 2, nextSessionId := 1 }

/-- Witness for C5 at time 100 (past the lock): a wrong password bumps the
counter from 3 to 4; the correct password logs in and resets it to 0. -/
theorem c5_witness :
    (login sampleSettings (DbConn.mk c5Db c5Db) 100 "a@x.com" "WrongPass1!" "ip" "ua").1 =
      .error ⟨401, "Invalid email or password"⟩ ∧
    (loginFailUpdate 100 c5User).failedLoginAttempts =
      c5User.failedLoginAttempts + 1 ∧
    exceptIsOk (login sampleSettings (DbConn.mk c5Db c5Db) 100 "a@x.com" "Secret1!"
        "ip" "ua").1 = true ∧
    (loginSuccessUpdate 100 c5User).failedLoginAttempts = 0 := by
  have h := c5_lock_expiry sampleSettings (DbConn.mk c5Db c5Db) 100 "a@x.com"
    "WrongPass1!" "ip" "ua" c5User 50 (by decide) rfl rfl (by omega)
  have h2 := c5_lock_expiry sampleSettings (DbConn.mk c5Db c5Db) 100 "a@x.com"
    "Secret1!" "ip" "ua" c5User 50 (by decide) rfl rfl (by omega)
  have ha := h.1 (by decide)
  have hb := h2.2 (by decide)
  exact ⟨ha.1, ha.2.2, hb.1, hb.2.2.1⟩


/-! ## C2 — the single-active-session invariant -/

/-- C2: after a completed login or refresh, at most one session row of the
user is active — namely exactly the session the operation just created
(login) or rotated (refresh), carrying the tokens it returned; both
operations deactivate every other active session of the user before
committing. -/
theorem c2_single_active_session :
    (∀ (st : Settings) (conn : DbConn) (now : Nat) (email pw ip ua : String) (u : User),
      conn.pending.users.find? (fun x => decide (x.email = sanitizeInput email)) = some u →
      u.isActive = true → u.isLocked now = false →
      verifyPassword pw u.hashedPassword = true →
      (login st conn now email pw ip ua).2.committed.sessions.filter
          (fun s => decide (s.userId = u.id) && s.isActive) =
        [{ id := conn.pending.nextSessionId, userId := u.id
           sessionToken := createAccessToken (toString u.id) now
             (st.accessTokenExpireMinutes * 60) st.secretKey
           refreshToken := createRefreshToken (toString u.id) now
             (st.refreshTokenExpireDays * 24 * 60 * 60) st.secretKey
           ipAddress := ip, userAgent := ua, isActive := true
           expiresAt := now + st.refreshTokenExpireDays * 24 * 60 * 60
           createdAt := now, lastUsed := now }]) ∧
    (∀ (st : Settings) (conn : DbConn) (now : Nat) (tok : Jwt) (p : Claims)
        (uid : String) (sess : UserSession) (user : User),
      verifyToken st.secretKey now tok = some p →
      p.type = some "refresh" →
      p.sub = some uid →
      conn.pending.sessions.find?
        (fun s => decide (s.refreshToken = tok) && s.isActive) = some sess →
      sess.isExpired now = false →
      conn.pending.users.find? (fun x => decide (toString x.id = uid)) = some user →
      user.canLogin now = true →
      (conn.pending.sessions.map UserSession.id).Nodup →
      sess.userId = user.id →
      (refreshTokenOp st conn now tok).2.committed.sessions.filter
          (fun s => decide (s.userId = user.id) && s.isActive) =
        [{ sess with
             sessionToken := createAccessToken (toString user.id) now
               (st.accessTokenExpireMinutes * 60) st.secretKey
             refreshToken := createRefreshToken (toString user.id) now
               (st.refreshTokenExpireDays * 24 * 60 * 60) st.secretKey
             expiresAt := now + st.refreshTokenExpireDays * 24 * 60 * 60
             lastUsed := now }]) := by
  constructor
  · intro st conn now email pw ip ua u hfind hact hlock hverify
    have hone : (login st conn now email pw ip ua).2.committed.sessions =
        (conn.pending.sessions.map (fun s =>
          if decide (s.userId = u.id) && s.isActive then s.deactivate else s)) ++
        [{ id := conn.pending.nextSessionId, userId := u.id
           sessionToken := createAccessToken (toString u.id) now
             (st.accessTokenExpireMinutes * 60) st.secretKey
           refreshToken := createRefreshToken (toString u.id) now
             (st.refreshTokenExpireDays * 24 * 60 * 60) st.secretKey
           ipAddress := ip, userAgent := ua, isActive := true
           expiresAt := now + st.refreshTokenExpireDays * 24 * 60 * 60
           createdAt := now, lastUsed := now }] := by
      simp [login, hfind, User.canLogin, hact, hlock, hverify, DbConn.commit]
    rw [hone, List.filter_append, filter_deactivate_all]
    simp
  · intro st conn now tok p uid sess user hv htype hsub hsess hnexp huser hcan hids howner
    have hps := List.find?_some hsess
    simp only [Bool.and_eq_true, decide_eq_true_eq] at hps
    have hone : (refreshTokenOp st conn now tok).2.committed.sessions =
        conn.pending.sessions.map (fun s =>
          if s.id = sess.id then
            { s with
                sessionToken := createAccessToken (toString user.id) now
                  (st.accessTokenExpireMinutes * 60) st.secretKey
                refreshToken := createRefreshToken (toString user.id) now
                  (st.refreshTokenExpireDays * 24 * 60 * 60) st.secretKey
                expiresAt := now + st.refreshTokenExpireDays * 24 * 60 * 60
                lastUsed := now }
          else if decide (s.userId = user.id) && s.isActive then s.deactivate
          else s) := by
      simp [refreshTokenOp, hv, htype, hsub, hsess, hnexp, huser, hcan, DbConn.commit]
    rw [hone]
    exact filter_rotate user.id
      (fun s => { s with
        sessionToken := createAccessToken (toString user.id) now
          (st.accessTokenExpireMinutes * 60) st.secretKey
        refreshToken := createRefreshToken (toString user.id) now
          (st.refreshTokenExpireDays * 24 * 60 * 60) st.secretKey
        expiresAt := now + st.refreshTokenExpireDays * 24 * 60 * 60
        lastUsed := now })
      (fun _ => rfl) (fun _ => rfl)
      conn.pending.sessions sess (List.mem_of_find?_eq_some hsess) hids howner hps.2

/-- The refresh token bound to the C2 witness session. -/
def c2RefreshTok : Jwt := createRefreshToken "1" 0 604800 sampleSettings.secretKey

/-- A pre-existing active session of the sample user, used by the C2
witness. -/
def c2Session : UserSession :=
  { id := 1, userId := 1
    sessionToken := createAccessToken "1" 0 1800 sampleSettings.secretKey
    refreshToken := c2RefreshTok
    ipAddress := "ip0", userAgent := "ua0", isActive := true
    expiresAt := 604800, createdAt := 0, lastUsed := 0 }

/-- The store used by the C2 witness: one user, one active session. -/
def c2Db : Db :=
  { users := [sampleUser], sessions := [c2Session], nextUserId := 2, nextSessionId := 2 }

/-- Witness for C2: a concrete login supersedes the old session and leaves
exactly the new one active; a concrete refresh leaves exactly the rotated
one active. -/
theorem c2_witness :
    (login sampleSettings (DbConn.mk c2Db c2Db) 100 "a@x.com" "Secret1!"
        "ip" "ua").2.committed.sessions.filter
        (fun s => decide (s.userId = sampleUser.id) && s.isActive) =
      [{ id := 2, userId := sampleUser.id
         sessionToken := createAccessToken (toString sampleUser.id) 100
           (sampleSettings.accessTokenExpireMinutes * 60) sampleSettings.secretKey
         refreshToken := createRefreshToken (toString sampleUser.id) 100
           (sampleSettings.refreshTokenExpireDays * 24 * 60 * 60) sampleSettings.secretKey
         ipAddress := "ip", userAgent := "ua", isActive := true
         expiresAt := 100 + sampleSettings.refreshTokenExpireDays * 24 * 60 * 60
         createdAt := 100, lastUsed := 100 }] ∧
    (refreshTokenOp sampleSettings (DbConn.mk c2Db c2Db) 100
        c2RefreshTok).2.committed.sessions.filter
        (fun s => decide (s.userId = sampleUser.id) && s.isActive) =
      [{ c2Session with
           sessionToken := createAccessToken (toString sampleUser.id) 100
             (sampleSettings.accessTokenExpireMinutes * 60) sampleSettings.secretKey
           refreshToken := createRefreshToken (toString sampleUser.id) 100
             (sampleSettings.refreshTokenExpireDays * 24 * 60 * 60) sampleSettings.secretKey
           expiresAt := 100 + sampleSettings.refreshTokenExpireDays * 24 * 60 * 60
           lastUsed := 100 }] :=
  ⟨c2_single_active_session.1 sampleSettings (DbConn.mk c2Db c2Db) 100
     "a@x.com" "Secret1!" "ip" "ua" sampleUser (by decide) rfl rfl (by decide),
   c2_single_active_session.2 sampleSettings (DbConn.mk c2Db c2Db) 100
     c2RefreshTok c2RefreshTok.claims "1" c2Session sampleUser
     rfl rfl rfl (by decide) rfl (by decide) rfl (by decide) rfl⟩

/-! ## C8 (amended) — logout idempotence for authenticated bearers -/

/-- C8 amended: for a bearer token accepted by the authentication
dependency (valid signature, unexpired, subject resolving to an existing
active user), logout returns the ok result even when no matching active
session exists; calling it twice with the same token returns ok both
times, and afterwards every session bound to that token is inactive. -/
theorem c8_logout_idempotent
    (st : Settings) (conn : DbConn) (now : Nat) (tok : Jwt) (user : User)
    (hfresh : conn.pending = conn.committed)
    (hauth : getCurrentUser conn.pending.users st.secretKey now tok = Except.ok user)
    (howner : ∀ s ∈ conn.pending.sessions, s.sessionToken = tok → s.userId = user.id)
    (huniq : conn.pending.sessions.countP (fun s => decide (s.sessionToken = tok)) ≤ 1) :
    (logout st conn now tok).1 = .ok "Successfully logged out" ∧
    (logout st (logout st conn now tok).2 now tok).1 = .ok "Successfully logged out" ∧
    (∀ s ∈ (logout st (logout st conn now tok).2 now tok).2.committed.sessions,
      s.sessionToken = tok → s.isActive = false) := by
  cases hfind : conn.pending.sessions.find? (fun s =>
      decide (s.sessionToken = tok) && decide (s.userId = user.id) && s.isActive) with
  | none =>
    have h1 : logout st conn now tok = (.ok "Successfully logged out", conn) := by
      simp [logout, hauth, hfind]
    have hinact : ∀ s ∈ conn.pending.sessions, s.sessionToken = tok → s.isActive = false := by
      intro s hs htok
      cases h : s.isActive with
      | false => rfl
      | true =>
        exfalso
        apply List.find?_eq_none.mp hfind s hs
        simp [htok, howner s hs htok, h]
    refine ⟨by rw [h1], by rw [h1, h1], ?_⟩
    rw [h1, h1]
    intro s hs htok
    rw [← hfresh] at hs
    exact hinact s hs htok
  | some sess0 =>
    have hp0 := List.find?_some hfind
    have hm0 := List.mem_of_find?_eq_some hfind
    simp only [Bool.and_eq_true, decide_eq_true_eq] at hp0
    obtain ⟨⟨htok0, _⟩, _⟩ := hp0
    have h1 : logout st conn now tok =
        (.ok "Successfully logged out",
         DbConn.commit { conn with pending := { conn.pending with
           sessions := conn.pending.sessions.map (fun s =>
             if s.id = sess0.id then s.deactivate else s) } }) := by
      simp [logout, hauth, hfind]
    have hinact : ∀ s ∈ conn.pending.sessions.map (fun s =>
        if s.id = sess0.id then s.deactivate else s),
        s.sessionToken = tok → s.isActive = false := by
      intro s hs htok
      rcases List.mem_map.mp hs with ⟨y, hy, rfl⟩
      by_cases hid : y.id = sess0.id
      · rw [if_pos hid]
        rfl
      · rw [if_neg hid] at htok ⊢
        have hyeq : y = sess0 := countP_le_one_unique _ conn.pending.sessions huniq
          y sess0 hy hm0 (by simp [htok]) (by simp [htok0])
        exact absurd (congrArg UserSession.id hyeq) hid
    have hauth1 : getCurrentUser (DbConn.commit { conn with pending := { conn.pending with
        sessions := conn.pending.sessions.map (fun s =>
          if s.id = sess0.id then s.deactivate else s) } }).pending.users
        st.secretKey now tok = Except.ok user := hauth
    have hfind1 : (DbConn.commit { conn with pending := { conn.pending with
        sessions := conn.pending.sessions.map (fun s =>
          if s.id = sess0.id then s.deactivate else s) } }).pending.sessions.find?
        (fun s => decide (s.sessionToken = tok) && decide (s.userId = user.id) &&
          s.isActive) = none := by
      rw [List.find?_eq_none]
      intro s hs hpred
      simp only [Bool.and_eq_true, decide_eq_true_eq] at hpred
      obtain ⟨⟨ht, _⟩, ha⟩ := hpred
      have := hinact s hs ht
      rw [this] at ha
      exact Bool.false_ne_true ha
    have h2 : logout st (DbConn.commit { conn with pending := { conn.pending with
        sessions := conn.pending.sessions.map (fun s =>
          if s.id = sess0.id then s.deactivate else s) } }) now tok =
        (.ok "Successfully logged out",
         DbConn.commit { conn with pending := { conn.pending with
           sessions := conn.pending.sessions.map (fun s =>
             if s.id = sess0.id then s.deactivate else s) } }) := by
      simp [logout, hauth1, hfind1]
    refine ⟨by rw [h1], by rw [h1, h2], ?_⟩
    rw [h1, h2]
    intro s hs htok
    exact hinact s hs htok

/-- Witness for the amended C8: logging out twice with the session's valid
access token returns ok both times. -/
theorem c8_logout_witness :
    (logout sampleSettings (DbConn.mk c8Db c8Db) 100 c8Session.sessionToken).1 =
      .ok "Successfully logged out" ∧
    (logout sampleSettings
        (logout sampleSettings (DbConn.mk c8Db c8Db) 100 c8Session.sessionToken).2
        100 c8Session.sessionToken).1 = .ok "Successfully logged out" :=
  have h := c8_logout_idempotent sampleSettings (DbConn.mk c8Db c8Db) 100
    c8Session.sessionToken sampleUser rfl rfl (by decide) (by decide)
  ⟨h.1, h.2.1⟩

end AuthService
